import Mathlib

/-!
Verification of the GitPulse backend (src/src-tauri/src): the contribution
fetch-and-cache flow in `commands.rs` and the credential-store pass-through
in `auth.rs`, shallowly embedded in Lean.

External effects are made explicit state:
* the JSON values handled by `serde_json` become the inductive `Json`;
* the HTTP response that `reqwest` delivers becomes `RemoteResponse`
  (transport failure, or a status code plus a body-parse outcome);
* a cache file on disk becomes `CacheFile` (metadata-read outcome, age in
  whole seconds as reported by `elapsed().as_secs()`, and the combined
  outcome of `fs::read_to_string` followed by `serde_json::from_str`);
* the system keyring becomes `Keyring`, modelled from the spec's adapter
  contract since the `keyring` crate is an external collaborator.
-/

/-- Model of `serde_json::Value`. Integer numbers only: the repository never
produces non-integer numbers, and `as_i64` rejects them exactly as it rejects
the other non-integer constructors. -/
inductive Json where
  | null
  | bool (b : Bool)
  | num (n : Int)
  | str (s : String)
  | arr (xs : List Json)
  | obj (fields : List (String × Json))

/-- Model of `Value::get`: `Some` exactly when the value is an object containing
the key (`serde_json`'s `Map::get`). -/
def Json.get (j : Json) (key : String) : Option Json :=
  match j with
  | .obj fields => fields.lookup key
  | _ => none

/-- Bracket indexing `value[key]` (the `Index<&str>` impl): the entry if the value is an object
holding the key, `Null` otherwise. -/
def Json.index (j : Json) (key : String) : Json :=
  match j.get key with
  | some v => v
  | none => .null

/-- Model of `Value::as_array`. -/
def Json.as_array (j : Json) : Option (List Json) :=
  match j with
  | .arr xs => some xs
  | _ => none

/-- Model of `Value::as_str`. -/
def Json.as_str (j : Json) : Option String :=
  match j with
  | .str s => some s
  | _ => none

/-- Model of `Value::as_i64`: the integer when it fits in a signed 64-bit machine
integer, `None` for every other value. -/
def Json.as_i64 (j : Json) : Option Int :=
  match j with
  | .num n => if -(2 ^ 63) ≤ n ∧ n < 2 ^ 63 then some n else none
  | _ => none

/-- Minimal string escaping of `serde_json`'s `Display` (quote and
backslash; the repository never renders control characters). -/
def jsonEscapeChar (c : Char) : String :=
  if c = '\"' ∨ c = '\\' then "\\" ++ String.singleton c else String.singleton c

/-- Escape a string for JSON output. -/
def jsonEscape (s : String) : String :=
  String.join (s.toList.map jsonEscapeChar)

mutual

/-- Display rendering of a `serde_json::Value`: compact JSON text. -/
def Json.render : Json → String
  | .null => "null"
  | .bool b => if b then "true" else "false"
  | .num n => toString n
  | .str s => "\"" ++ jsonEscape s ++ "\""
  | .arr xs => "[" ++ Json.renderItems xs ++ "]"
  | .obj fields => "\x7b" ++ Json.renderFields fields ++ "\x7d"

/-- Comma-separated rendering of array items. -/
def Json.renderItems : List Json → String
  | [] => ""
  | [x] => Json.render x
  | x :: xs => Json.render x ++ "," ++ Json.renderItems xs

/-- Comma-separated rendering of object fields. -/
def Json.renderFields : List (String × Json) → String
  | [] => ""
  | [(k, v)] => "\"" ++ jsonEscape k ++ "\":" ++ Json.render v
  | (k, v) :: rest =>
      "\"" ++ jsonEscape k ++ "\":" ++ Json.render v ++ "," ++ Json.renderFields rest

end

/-- Source `commands.rs` lines 6-11: one day of the contribution calendar.
`contribution_count` is the Rust field `contribution_count` (serialized as
`contributionCount`), an `i32` modelled as an `Int` kept in 32-bit range by
the cast in `fetch_from_github`. -/
structure ContributionDay where
  date : String
  contribution_count : Int
deriving DecidableEq, Repr

/-- Source `commands.rs` lines 13-18: the envelope returned to the caller. -/
structure FetchResult where
  ok : Bool
  data : Option (List ContributionDay)
  error : Option String
deriving DecidableEq, Repr

/-- Rust's `v as i32` on an `i64` value: two's-complement truncation to 32
bits. -/
def i64_as_i32 (n : Int) : Int :=
  (n + 2 ^ 31) % 2 ^ 32 - 2 ^ 31

/-- The body of the inner `for day in contribution_days` loop: build one
`ContributionDay`, defaulting a missing/non-string date to `""` and a
missing/non-numeric count to `0`, then casting with `as i32`. -/
def mkDay (day : Json) : ContributionDay :=
  { date := ((day.index "date").as_str).getD ""
    contribution_count := i64_as_i32 (((day.index "contributionCount").as_i64).getD 0) }

/-- The inner loop of `fetch_from_github`: push each converted day onto the
accumulator vector. -/
def pushDays (ds : List Json) (acc : List ContributionDay) : List ContributionDay :=
  match ds with
  | [] => acc
  | d :: rest => pushDays rest (acc ++ [mkDay d])

/-- The outer `for week in weeks` loop of `fetch_from_github`: when
`week["contributionDays"]` is an array, run the inner loop over it. -/
def flattenLoop (weeks : List Json) (acc : List ContributionDay) : List ContributionDay :=
  match weeks with
  | [] => acc
  | w :: rest =>
      match (w.index "contributionDays").as_array with
      | some ds => flattenLoop rest (pushDays ds acc)
      | none => flattenLoop rest acc

/-- Source `commands.rs` lines 117-133: the flattening of the weeks array, starting
from `Vec::new()`. -/
def flattenWeeks (weeks : List Json) : List ContributionDay :=
  flattenLoop weeks []

/-- The remote interaction seen by `fetch_from_github`: either the transport
fails (`send().await` errors), or a response arrives with a status code and a
body whose JSON decoding (`response.json().await`) succeeded or failed. -/
inductive RemoteResponse where
  | netErr (msg : String)
  | httpResp (status : Nat) (body : Except String Json)

/-- Source `commands.rs` `fetch_from_github` (response handling): map transport
failure, non-2xx status, body-parse failure, an embedded `errors` field and a
missing weeks array to distinct error strings; otherwise flatten the weeks.
Request construction (URL, headers, the GraphQL query text) is I/O without
influence on this logic and is not modelled. -/
def fetch_from_github (remote : RemoteResponse) : Except String (List ContributionDay) :=
  match remote with
  | .netErr m => .error ("Network error: " ++ m)
  | .httpResp status body =>
      if ¬(200 ≤ status ∧ status < 300) then
        .error ("GitHub API error: " ++ toString status)
      else
        match body with
        | .error pe => .error ("JSON parse error: " ++ pe)
        | .ok result =>
            match result.get "errors" with
            | some errors => .error ("GraphQL error: " ++ errors.render)
            | none =>
                match (((((result.index "data").index "user").index
                    "contributionsCollection").index
                    "contributionCalendar").index "weeks").as_array with
                | none => .error "Invalid response structure"
                | some weeks => .ok (flattenWeeks weeks)

/-- One cache file on disk, as `load_from_cache` observes it.
`metaErr`: failure of `fs::metadata` (maps to an early error return).
`ageSecs`: `modified().elapsed().as_secs()` when both `modified()` and
`elapsed()` succeed, `none` when either fails (unreadable timestamp, or a
modification time in the future).
`parsed`: the combined outcome of `fs::read_to_string` followed by
`serde_json::from_str` on the file's contents. -/
structure CacheFile where
  metaErr : Option String
  ageSecs : Option Nat
  parsed : Except String (List ContributionDay)

/-- Source `commands.rs` lines 137-160 `load_from_cache`: absent file is an error;
a readable age above 300 seconds is "Cache expired"; an unreadable age skips
the expiry check; otherwise the read-and-parse outcome is returned. -/
def load_from_cache (file : Option CacheFile) : Except String (List ContributionDay) :=
  match file with
  | none => .error "Cache file not found"
  | some f =>
      match f.metaErr with
      | some e => .error e
      | none =>
          match f.ageSecs with
          | some a => if a > 300 then .error "Cache expired" else f.parsed
          | none => f.parsed

/-- Source `commands.rs` lines 163-179 `save_to_cache`: serialization, directory
creation or file write can fail; `writeErr` injects such a failure. On
success the file now holds the serialization of `days`. -/
def save_to_cache (writeErr : Option String) : Except String Unit :=
  match writeErr with
  | some e => .error e
  | none => .ok ()

/-- What one call of `fetch_contributions` did: the envelope handed back, 
whether `fetch_from_github` ran, and the contents written to the cache file
(`none` when no write happened). -/
structure FetchOutcome where
  result : FetchResult
  networkCalled : Bool
  cacheWritten : Option (List ContributionDay)

/-- Source `commands.rs` lines 22-54 `fetch_contributions`: on a cache hit return
the cached data; otherwise fetch, attempt a best-effort cache write whose
result is discarded (`let _ = ...`), and wrap success or failure in a
`FetchResult` inside the outer `Ok`. -/
def fetch_contributions (cache : Option CacheFile) (remote : RemoteResponse)
    (writeErr : Option String) : Except String FetchOutcome :=
  match load_from_cache cache with
  | .ok cached_data =>
      .ok { result := { ok := true, data := some cached_data, error := none }
            networkCalled := false
            cacheWritten := none }
  | .error _ =>
      match fetch_from_github remote with
      | .ok days =>
          .ok { result := { ok := true, data := some days, error := none }
                networkCalled := true
                cacheWritten :=
                  match save_to_cache writeErr with
                  | .ok _ => some days
                  | .error _ => none }
      | .error e =>
          .ok { result := { ok := false, data := none, error := some e }
                networkCalled := true
                cacheWritten := none }

/-- Whether a path is absolute in the Unix sense `Path::is_absolute` uses:
it begins with the separator. -/
def isAbsolute (p : String) : Bool :=
  match p.data with
  | [] => false
  | c :: _ => c == '/'

/-- Semantics of `PathBuf::join` (Unix): an absolute component replaces the
base path entirely; a relative component is appended after a separator. No
normalization of dot segments is performed. -/
def path_join (base comp : String) : String :=
  if isAbsolute comp then comp else base ++ "/" ++ comp

/-- Source `commands.rs` lines 182-189 `get_cache_path`: join the app data
directory with `cache`, then with the username followed by
`_contributions.json`, under `PathBuf::join` semantics (so a username that is
itself an absolute path replaces the whole base). -/
def get_cache_path (app_data_dir username : String) : String :=
  path_join (path_join app_data_dir "cache") (username ++ "_contributions.json")

/-- The cache area of the disk: each path either holds a cache file or
nothing. -/
abbrev FileSys := String → Option CacheFile

/-- A freshly written cache file: age zero, parses back to the days just
serialized. -/
def writtenFile (days : List ContributionDay) : CacheFile :=
  { metaErr := none, ageSecs := some 0, parsed := .ok days }

/-- Lifting of `fetch_contributions` to the filesystem: the cache file read and
the cache file written are both at `get_cache_path app_data_dir username`. -/
def fetch_contributions_fs (fs : FileSys) (app_data_dir username : String)
    (remote : RemoteResponse) (writeErr : Option String) :
    Except String (FetchOutcome × FileSys) :=
  match fetch_contributions (fs (get_cache_path app_data_dir username)) remote writeErr with
  | .error e => .error e
  | .ok o =>
      .ok (o, match o.cacheWritten with
              | some days => fun q =>
                  if q = get_cache_path app_data_dir username then some (writtenFile days)
                  else fs q
              | none => fs)

/-- The cache directory: absent, or present with a list of (name, contents)
files. -/
abbrev CacheDir := Option (List (String × String))

/-- Source `commands.rs` lines 192-207 `clear_cache`: if the cache directory
exists, remove it wholesale and recreate it empty, propagating either
filesystem failure (`removeErr`/`createErr` inject them); then report the
fixed confirmation. An absent directory is left untouched. Resolution of the
app data directory is assumed to succeed. -/
def clear_cache (dir : CacheDir) (removeErr createErr : Option String) :
    Except String (String × CacheDir) :=
  match dir with
  | some _ =>
      match removeErr with
      | some e => .error e
      | none =>
          match createErr with
          | some e => .error e
          | none => .ok ("Cache cleared successfully", some [])
  | none => .ok ("Cache cleared successfully", none)

/-- Modelled from the spec: the platform credential store behind the
`keyring` crate, which is an external collaborator absent from src/. Spec
§4.1: one secret per (service, user) pair; `get`/`delete` fail with a
not-found error when no entry exists, every operation fails when the store
is unavailable. The not-found message is the keyring crate's. -/
structure Keyring where
  available : Bool
  entries : List ((String × String) × String)

/-- Modelled from the spec: store-unavailable failure message. -/
def storeUnavailableMsg : String := "Platform secure storage failure"

/-- Modelled from the spec: not-found failure message. -/
def notFoundMsg : String := "No matching entry found in secure storage"

/-- Modelled from the spec: create or overwrite the secret of
(service, user). -/
def kr_set (kr : Keyring) (service user secret : String) : Except String Keyring :=
  if kr.available then
    let rest := kr.entries.filter (fun e => !(e.1 == (service, user)))
    .ok { kr with entries := ((service, user), secret) :: rest }
  else .error storeUnavailableMsg

/-- Modelled from the spec: read the secret of (service, user). -/
def kr_get (kr : Keyring) (service user : String) : Except String String :=
  if kr.available then
    match kr.entries.lookup (service, user) with
    | some secret => .ok secret
    | none => .error notFoundMsg
  else .error storeUnavailableMsg

/-- Modelled from the spec: remove the secret of (service, user). -/
def kr_delete (kr : Keyring) (service user : String) : Except String Keyring :=
  if kr.available then
    match kr.entries.lookup (service, user) with
    | some _ =>
        let rest := kr.entries.filter (fun e => !(e.1 == (service, user)))
        .ok { kr with entries := rest }
    | none => .error notFoundMsg
  else .error storeUnavailableMsg

/-- Source `auth.rs` `save_token`: `Entry::new` then `set_password`, errors
stringified. -/
def save_token (service user token : String) (kr : Keyring) : Except String Keyring :=
  kr_set kr service user token

/-- Source `auth.rs` `get_token`: `Entry::new` then `get_password`, errors
stringified. -/
def get_token (service user : String) (kr : Keyring) : Except String String :=
  kr_get kr service user

/-- Source `auth.rs` `delete_token`: `Entry::new` then `delete_password`, errors
stringified. -/
def delete_token (service user : String) (kr : Keyring) : Except String Keyring :=
  kr_delete kr service user

/-- Source `commands.rs` line 209: the fixed service name. -/
def SERVICE_NAME : String := "gitpulse"

/-- Source `commands.rs` line 210: the fixed account key. -/
def USER_KEY : String := "github_token"

/-- Source `commands.rs` `save_github_token`. -/
def save_github_token (token : String) (kr : Keyring) : Except String Keyring :=
  save_token SERVICE_NAME USER_KEY token kr

/-- Source `commands.rs` `get_github_token`. -/
def get_github_token (kr : Keyring) : Except String String :=
  get_token SERVICE_NAME USER_KEY kr

/-- Source `commands.rs` `delete_github_token`. -/
def delete_github_token (kr : Keyring) : Except String Keyring :=
  delete_token SERVICE_NAME USER_KEY kr

/-! ## Helper lemmas -/

/-- The days of one week as the flattening sees them: the array under
`contributionDays`, or nothing when that field is not an array. -/
def weekDays (w : Json) : List Json :=
  ((w.index "contributionDays").as_array).getD []

/-- Follows the spec's words (§4.2 step 3): concatenate all days across all
weeks, in order, into one flat sequence, converting each day. -/
def flatten_spec (weeks : List Json) : List ContributionDay :=
  ((weeks.map weekDays).flatten).map mkDay

/-- Whether a finished call of `fetch_contributions` reached the network. -/
def networkCalledOf : Except String FetchOutcome → Bool
  | .ok o => o.networkCalled
  | .error _ => false

/-- The envelope a finished call of `fetch_contributions` handed back. -/
def resultOf : Except String FetchOutcome → Option FetchResult
  | .ok o => some o.result
  | .error _ => none

/-- The contents a finished call of `fetch_contributions` wrote to the cache
file, when it wrote. -/
def writtenOf : Except String FetchOutcome → Option (List ContributionDay)
  | .ok o => o.cacheWritten
  | .error _ => none

/-- A remote day carrying a negative contribution count. -/
def negCountDay : Json :=
  .obj [("date", .str "2024-01-01"), ("contributionCount", .num (-1))]

/-- A weeks array holding only `negCountDay`. -/
def negCountWeeks : List Json :=
  [.obj [("contributionDays", .arr [negCountDay])]]

/-- A weeks array with one in-range day and one day missing its count. -/
def okCountWeeks : List Json :=
  [.obj [("contributionDays", .arr
    [.obj [("date", .str "2024-01-01"), ("contributionCount", .num 5)],
     .obj [("date", .str "2024-01-02")]])]]

/-- A well-formed remote body: the nested path down to `weeks` holds
`okCountWeeks`. -/
def goodBody : Json :=
  .obj [("data", .obj [("user", .obj [("contributionsCollection",
    .obj [("contributionCalendar", .obj [("weeks", .arr okCountWeeks)])])])])]

theorem pushDays_eq (ds : List Json) (acc : List ContributionDay) :
    pushDays ds acc = acc ++ ds.map mkDay := by
  induction ds generalizing acc with
  | nil => simp [pushDays]
  | cons d rest ih => simp [pushDays, ih]

theorem flattenLoop_eq (weeks : List Json) (acc : List ContributionDay) :
    flattenLoop weeks acc = acc ++ flatten_spec weeks := by
  induction weeks generalizing acc with
  | nil => simp [flattenLoop, flatten_spec]
  | cons w rest ih =>
      cases h : (w.index "contributionDays").as_array with
      | some ds =>
          simp [flattenLoop, h, ih, pushDays_eq, flatten_spec, weekDays]
      | none =>
          simp [flattenLoop, h, ih, flatten_spec, weekDays]

theorem flattenWeeks_eq_spec (weeks : List Json) :
    flattenWeeks weeks = flatten_spec weeks := by
  simpa [flattenWeeks] using flattenLoop_eq weeks []

theorem i64_as_i32_of_range (v : Int) (h1 : 0 ≤ v) (h2 : v < 2 ^ 31) :
    i64_as_i32 v = v := by
  have e31 : (2 : Int) ^ 31 = 2147483648 := by norm_num
  have e32 : (2 : Int) ^ 32 = 4294967296 := by norm_num
  unfold i64_as_i32
  rw [e31, e32] at *
  rw [Int.emod_eq_of_lt (by omega) (by omega)]
  omega

theorem str_append_ne_empty (s t : String) (h : 0 < s.length) : s ++ t ≠ "" := by
  intro he
  have h2 := congrArg String.length he
  simp [String.length_append] at h2
  omega

/-! ## Claims about flattening (C2, C9) -/

/-- C2: flattening the remote payload concatenates all days of all weeks, in
the order the remote API returns them, into one flat sequence (so no day
present in the payload is dropped: the output length is the total day
count); a missing date defaults to the empty string and a missing or
non-numeric contributionCount defaults to 0. -/
theorem flattenWeeks_concats_all_days (weeks : List Json) :
    flattenWeeks weeks = flatten_spec weeks
  ∧ (flattenWeeks weeks).length = ((weeks.map weekDays).map List.length).sum
  ∧ (∀ day : Json, (day.index "date").as_str = none → (mkDay day).date = "")
  ∧ (∀ day : Json, (day.index "contributionCount").as_i64 = none →
      (mkDay day).contribution_count = 0) := by
  refine ⟨flattenWeeks_eq_spec weeks, ?_, ?_, ?_⟩
  · rw [flattenWeeks_eq_spec]
    simp [flatten_spec, Function.comp_def]
  · intro day hd
    simp [mkDay, hd]
  · intro day hd
    simp [mkDay, hd]
    decide

/-- Witness for C2 at the empty-object day: both fields are missing there,
and both defaults fire. -/
theorem flattenWeeks_concats_all_days_witness :
    ((Json.obj []).index "date").as_str = none
  ∧ ((Json.obj []).index "contributionCount").as_i64 = none
  ∧ (mkDay (Json.obj [])).date = ""
  ∧ (mkDay (Json.obj [])).contribution_count = 0 :=
  ⟨rfl, rfl, (flattenWeeks_concats_all_days []).2.2.1 _ rfl,
    (flattenWeeks_concats_all_days []).2.2.2 _ rfl⟩

/-- C9 counterexample: a payload whose day has contributionCount -1 flattens
to a ContributionDay with contribution_count -1 < 0 — the code casts with
`as i32` and never clamps, so the produced count is not always ≥ 0. -/
theorem flatten_negative_count_cex :
    flattenWeeks negCountWeeks =
      [{ date := "2024-01-01", contribution_count := -1 }]
  ∧ ({ date := "2024-01-01", contribution_count := -1 } : ContributionDay).contribution_count < 0 := by
  constructor
  · decide
  · decide

/-- C9 (amended): every ContributionDay produced by flattening has
contributionCount ≥ 0 provided each day's numeric count (defaulted to 0 when
missing or non-numeric) lies in [0, 2^31); outside that range the `as i32`
cast can produce a negative count. -/
theorem flatten_count_nonneg_of_range (weeks : List Json)
    (h : ∀ w ∈ weeks, ∀ d ∈ weekDays w,
        0 ≤ (((d.index "contributionCount").as_i64).getD 0) ∧
        (((d.index "contributionCount").as_i64).getD 0) < 2 ^ 31) :
    ∀ cd ∈ flattenWeeks weeks, 0 ≤ cd.contribution_count := by
  intro cd hcd
  rw [flattenWeeks_eq_spec] at hcd
  unfold flatten_spec at hcd
  obtain ⟨d, hd, rfl⟩ := List.mem_map.mp hcd
  obtain ⟨l, hl, hdl⟩ := List.mem_flatten.mp hd
  obtain ⟨w, hw, rfl⟩ := List.mem_map.mp hl
  obtain ⟨h1, h2⟩ := h w hw d hdl
  simp only [mkDay]
  rw [i64_as_i32_of_range _ h1 h2]
  exact h1

/-- Witness for C9 (amended) on a payload with one in-range day and one day
missing its count. -/
theorem flatten_count_nonneg_of_range_witness :
    (∀ w ∈ okCountWeeks, ∀ d ∈ weekDays w,
        0 ≤ (((d.index "contributionCount").as_i64).getD 0) ∧
        (((d.index "contributionCount").as_i64).getD 0) < 2 ^ 31)
  ∧ ∀ cd ∈ flattenWeeks okCountWeeks, 0 ≤ cd.contribution_count :=
  ⟨by decide, flatten_count_nonneg_of_range okCountWeeks (by decide)⟩

/-! ## The cache-or-fetch flow (C1, C3, C4, C5, C10) -/

theorem load_from_cache_fresh (f : CacheFile) (a : Nat) (hmeta : f.metaErr = none)
    (hage : f.ageSecs = some a) (hle : a ≤ 300) :
    load_from_cache (some f) = f.parsed := by
  simp only [load_from_cache, hmeta, hage]
  rw [if_neg (by omega)]

theorem load_from_cache_expired (f : CacheFile) (a : Nat) (hmeta : f.metaErr = none)
    (hage : f.ageSecs = some a) (hgt : 300 < a) :
    load_from_cache (some f) = .error "Cache expired" := by
  simp only [load_from_cache, hmeta, hage]
  rw [if_pos (by omega)]

theorem load_from_cache_parse_error_misses (f : CacheFile) (pe : String)
    (hp : f.parsed = .error pe) : ∃ e, load_from_cache (some f) = .error e := by
  cases hm : f.metaErr with
  | some e => exact ⟨e, by simp [load_from_cache, hm]⟩
  | none =>
      cases hage : f.ageSecs with
      | some a =>
          by_cases hgt : a > 300
          · exact ⟨"Cache expired", by simp [load_from_cache, hm, hage, hgt]⟩
          · exact ⟨pe, by simp [load_from_cache, hm, hage, hgt, hp]⟩
      | none => exact ⟨pe, by simp [load_from_cache, hm, hage, hp]⟩

theorem fetch_contributions_miss_eq (cache : Option CacheFile) (e : String)
    (remote : RemoteResponse) (we : Option String)
    (hmiss : load_from_cache cache = .error e) :
    fetch_contributions cache remote we = fetch_contributions none remote we := by
  unfold fetch_contributions
  rw [hmiss]
  rfl

theorem networkCalled_of_miss (cache : Option CacheFile) (e : String)
    (remote : RemoteResponse) (we : Option String)
    (hmiss : load_from_cache cache = .error e) :
    networkCalledOf (fetch_contributions cache remote we) = true := by
  cases hf : fetch_from_github remote <;>
    simp [fetch_contributions, hmiss, hf, networkCalledOf]

theorem fetch_error_nonempty (remote : RemoteResponse) (e : String)
    (h : fetch_from_github remote = .error e) : e ≠ "" := by
  cases remote with
  | netErr m =>
      simp only [fetch_from_github, Except.error.injEq] at h
      subst h
      exact str_append_ne_empty _ _ (by decide)
  | httpResp st body =>
      simp only [fetch_from_github] at h
      split at h
      · simp only [Except.error.injEq] at h
        subst h
        exact str_append_ne_empty _ _ (by decide)
      · split at h
        · simp only [Except.error.injEq] at h
          subst h
          exact str_append_ne_empty _ _ (by decide)
        · split at h
          · simp only [Except.error.injEq] at h
            subst h
            exact str_append_ne_empty _ _ (by decide)
          · split at h
            · simp only [Except.error.injEq] at h
              subst h
              decide
            · exact absurd h (by simp)

/-- C10: when the cache file exists but its last-modified timestamp cannot be
read or the elapsed time cannot be computed, the expiry check is skipped and
the cache-check step returns the read-and-parse outcome of the file's
contents regardless of actual age, with no staleness error. -/
theorem load_from_cache_unreadable_mtime (f : CacheFile)
    (hmeta : f.metaErr = none) (hage : f.ageSecs = none) :
    load_from_cache (some f) = f.parsed := by
  simp [load_from_cache, hmeta, hage]

/-- Witness for C10: a parseable file with an unreadable age is returned. -/
theorem load_from_cache_unreadable_mtime_witness :
    load_from_cache (some { metaErr := none, ageSecs := none, parsed := .ok [] }) =
      .ok [] :=
  (load_from_cache_unreadable_mtime
    { metaErr := none, ageSecs := none, parsed := .ok [] } rfl rfl).trans rfl

/-- C1: with a readable age, the cache-check step returns the cached list
exactly when the file parses and its age in whole seconds is at most 300: the
envelope then carries the parsed data with no network call and no cache
write; when the age exceeds 300 seconds the flow performs the network fetch
instead and, when that fetch succeeds and the write does not fail, overwrites
the cache file with the new days; a file that fails to parse also sends the
flow to the network. -/
theorem fetch_contributions_cache_window (f : CacheFile) (a : Nat)
    (remote : RemoteResponse) (we : Option String)
    (hmeta : f.metaErr = none) (hage : f.ageSecs = some a) :
    (∀ l, f.parsed = .ok l → a ≤ 300 →
        fetch_contributions (some f) remote we =
          .ok { result := { ok := true, data := some l, error := none },
                networkCalled := false, cacheWritten := none })
  ∧ (300 < a → networkCalledOf (fetch_contributions (some f) remote we) = true
      ∧ ∀ days, fetch_from_github remote = .ok days → we = none →
          writtenOf (fetch_contributions (some f) remote we) = some days)
  ∧ (∀ pe, f.parsed = .error pe →
        networkCalledOf (fetch_contributions (some f) remote we) = true) := by
  refine ⟨?_, ?_, ?_⟩
  · intro l hl hle
    have hload := load_from_cache_fresh f a hmeta hage hle
    rw [hl] at hload
    simp [fetch_contributions, hload]
  · intro hgt
    have hload := load_from_cache_expired f a hmeta hage hgt
    refine ⟨networkCalled_of_miss _ _ _ _ hload, ?_⟩
    intro days hdays hwe
    subst hwe
    simp [fetch_contributions, hload, hdays, writtenOf, save_to_cache]
  · intro pe hpe
    obtain ⟨e, hload⟩ := load_from_cache_parse_error_misses f pe hpe
    exact networkCalled_of_miss _ _ _ _ hload

/-- Witness for C1: a 10-second-old parseable file is served from cache with
no network call. -/
theorem fetch_contributions_cache_window_witness :
    (10 : Nat) ≤ 300
  ∧ fetch_contributions
      (some { metaErr := none, ageSecs := some 10,
              parsed := .ok [{ date := "2024-01-01", contribution_count := 3 }] })
      (.netErr "down") none =
      .ok { result := { ok := true,
                        data := some [{ date := "2024-01-01", contribution_count := 3 }],
                        error := none },
            networkCalled := false, cacheWritten := none } :=
  ⟨by decide,
    (fetch_contributions_cache_window _ 10 (.netErr "down") none rfl rfl).1 _ rfl
      (by decide)⟩

/-- C4: a cache file whose contents fail to parse is treated exactly like an
absent cache: the whole call equals the cache-free run, so the parse failure
is never the caller-visible error, and the network fetch is performed. -/
theorem fetch_contributions_corrupt_cache_is_miss (f : CacheFile) (pe : String)
    (remote : RemoteResponse) (we : Option String)
    (hp : f.parsed = .error pe) :
    fetch_contributions (some f) remote we = fetch_contributions none remote we
  ∧ networkCalledOf (fetch_contributions (some f) remote we) = true := by
  obtain ⟨e, hload⟩ := load_from_cache_parse_error_misses f pe hp
  exact ⟨fetch_contributions_miss_eq _ _ _ _ hload,
    networkCalled_of_miss _ _ _ _ hload⟩

/-- Witness for C4: a malformed 10-second-old file behaves as a cache-free
run. -/
theorem fetch_contributions_corrupt_cache_is_miss_witness :
    fetch_contributions
        (some { metaErr := none, ageSecs := some 10, parsed := .error "bad json" })
        (.netErr "down") none =
      fetch_contributions none (.netErr "down") none
  ∧ networkCalledOf
      (fetch_contributions
        (some { metaErr := none, ageSecs := some 10, parsed := .error "bad json" })
        (.netErr "down") none) = true :=
  fetch_contributions_corrupt_cache_is_miss _ "bad json" (.netErr "down") none rfl

/-- C3: on any remote-fetch failure after a cache miss, the call still
succeeds at the outer level and returns ok=false, no data, the non-empty
failure message, and writes no cache file. -/
theorem fetch_contributions_remote_failure (cache : Option CacheFile)
    (remote : RemoteResponse) (we : Option String) (ce e : String)
    (hmiss : load_from_cache cache = .error ce)
    (herr : fetch_from_github remote = .error e) :
    fetch_contributions cache remote we =
      .ok { result := { ok := false, data := none, error := some e },
            networkCalled := true, cacheWritten := none }
  ∧ e ≠ "" :=
  ⟨by simp [fetch_contributions, hmiss, herr], fetch_error_nonempty remote e herr⟩

/-- Witness for C3: a transport failure on a cache-free run. -/
theorem fetch_contributions_remote_failure_witness :
    fetch_contributions none (.netErr "down") none =
      .ok { result := { ok := false, data := none, error := some "Network error: down" },
            networkCalled := true, cacheWritten := none }
  ∧ "Network error: down" ≠ "" :=
  fetch_contributions_remote_failure none (.netErr "down") none
    "Cache file not found" "Network error: down" rfl rfl

/-- C5: after a cache miss and a successful remote fetch, the envelope handed
back is the success envelope whatever the cache write did: a failing write is
swallowed and the result is identical to the one a successful write yields. -/
theorem fetch_contributions_write_failure_swallowed (cache : Option CacheFile)
    (remote : RemoteResponse) (days : List ContributionDay) (ce : String)
    (hmiss : load_from_cache cache = .error ce)
    (hok : fetch_from_github remote = .ok days) :
    ∀ we : Option String,
      resultOf (fetch_contributions cache remote we) =
        some { ok := true, data := some days, error := none } := by
  intro we
  simp [fetch_contributions, hmiss, hok, resultOf]

/-- Witness for C5: a failing disk write after a successful fetch of
`goodBody` still yields the success envelope. -/
theorem fetch_contributions_write_failure_swallowed_witness :
    resultOf (fetch_contributions none (.httpResp 200 (.ok goodBody)) (some "disk full")) =
      some { ok := true,
             data := some [{ date := "2024-01-01", contribution_count := 5 },
                           { date := "2024-01-02", contribution_count := 0 }],
             error := none } :=
  fetch_contributions_write_failure_swallowed none (.httpResp 200 (.ok goodBody))
    [{ date := "2024-01-01", contribution_count := 5 },
     { date := "2024-01-02", contribution_count := 0 }]
    "Cache file not found" rfl rfl (some "disk full")

/-! ## clear_cache (C6) -/

/-- C6 counterexample: when the cache directory does not exist, `clear_cache`
returns the confirmation message yet performs no deletion and no creation —
afterwards the directory is still absent, not "present but empty". The
claim's "in every state of the filesystem" therefore fails. -/
theorem clear_cache_absent_dir_cex :
    clear_cache none none none = .ok ("Cache cleared successfully", none)
  ∧ (none : CacheDir) ≠ some ([] : List (String × String)) :=
  ⟨rfl, by simp⟩

/-- C6 (amended): when the cache directory exists, `clear_cache` succeeds
exactly when neither deletion nor creation fails, and then returns the fixed
confirmation with the directory present but empty; a deletion failure, or a
creation failure after a successful deletion, is the error returned; when the
directory does not exist, `clear_cache` returns the confirmation and leaves
the directory absent. -/
theorem clear_cache_spec (files : List (String × String)) (re ce : Option String) :
    (clear_cache (some files) re ce =
        .ok ("Cache cleared successfully", some ([] : List (String × String)))
      ↔ re = none ∧ ce = none)
  ∧ (∀ e, re = some e → clear_cache (some files) re ce = .error e)
  ∧ (re = none → ∀ e, ce = some e → clear_cache (some files) re ce = .error e)
  ∧ clear_cache none re ce = .ok ("Cache cleared successfully", none) := by
  refine ⟨?_, ?_, ?_, ?_⟩ <;> cases re <;> cases ce <;> simp [clear_cache]

/-- Witness for C6 (amended): clearing an existing one-file directory leaves
it present and empty. -/
theorem clear_cache_spec_witness :
    (none : Option String) = none
  ∧ clear_cache (some [("alice_contributions.json", "x")]) none none =
      .ok ("Cache cleared successfully", some ([] : List (String × String))) :=
  ⟨rfl, (clear_cache_spec [("alice_contributions.json", "x")] none none).1.mpr ⟨rfl, rfl⟩⟩

/-! ## Credential store (C7) -/

theorem lookup_filter_ne (l : List ((String × String) × String)) (k : String × String) :
    (l.filter (fun e => !(e.1 == k))).lookup k = none := by
  induction l with
  | nil => rfl
  | cons a rest ih =>
      cases ha : (a.1 == k) with
      | true => simp [List.filter, ha, ih]
      | false =>
          have hkb : (k == a.1) = false := by
            rw [beq_eq_false_iff_ne] at ha ⊢
            exact fun hc => ha hc.symm
          simp [List.filter, List.lookup, ha, hkb, ih]

/-- C7: over the modelled credential store, saving "abc" then reading returns
"abc"; deleting then reading fails with the not-found error; and the three
exposed operations all address the single secret under service "gitpulse" and
account key "github_token". -/
theorem token_roundtrip (kr : Keyring) (h : kr.available = true) :
    SERVICE_NAME = "gitpulse" ∧ USER_KEY = "github_token"
  ∧ (∀ t k, save_github_token t k = save_token SERVICE_NAME USER_KEY t k)
  ∧ (∀ k, get_github_token k = get_token SERVICE_NAME USER_KEY k)
  ∧ (∀ k, delete_github_token k = delete_token SERVICE_NAME USER_KEY k)
  ∧ ∃ kr1, save_github_token "abc" kr = .ok kr1
      ∧ get_github_token kr1 = .ok "abc"
      ∧ ∃ kr2, delete_github_token kr1 = .ok kr2
          ∧ get_github_token kr2 = .error notFoundMsg := by
  refine ⟨rfl, rfl, fun t k => rfl, fun k => rfl, fun k => rfl, ?_⟩
  refine ⟨{ kr with entries := ((("gitpulse", "github_token") : String × String), "abc") ::
      kr.entries.filter (fun e => !(e.1 == (("gitpulse", "github_token") : String × String))) },
    ?_, ?_, ?_⟩
  · simp [save_github_token, save_token, kr_set, h, SERVICE_NAME, USER_KEY]
  · simp [get_github_token, get_token, kr_get, h, SERVICE_NAME, USER_KEY, List.lookup]
  · refine ⟨{ kr with entries :=
        kr.entries.filter (fun e => !(e.1 == (("gitpulse", "github_token") : String × String))) },
      ?_, ?_⟩
    · simp [delete_github_token, delete_token, kr_delete, h, SERVICE_NAME, USER_KEY,
        List.lookup, List.filter_filter]
    · simp [get_github_token, get_token, kr_get, h, SERVICE_NAME, USER_KEY,
        lookup_filter_ne]

/-- Witness for C7 on the empty available store. -/
theorem token_roundtrip_witness :
    ({ available := true, entries := [] } : Keyring).available = true
  ∧ (SERVICE_NAME = "gitpulse" ∧ USER_KEY = "github_token"
    ∧ (∀ t k, save_github_token t k = save_token SERVICE_NAME USER_KEY t k)
    ∧ (∀ k, get_github_token k = get_token SERVICE_NAME USER_KEY k)
    ∧ (∀ k, delete_github_token k = delete_token SERVICE_NAME USER_KEY k)
    ∧ ∃ kr1, save_github_token "abc" { available := true, entries := [] } = .ok kr1
        ∧ get_github_token kr1 = .ok "abc"
        ∧ ∃ kr2, delete_github_token kr1 = .ok kr2
            ∧ get_github_token kr2 = .error notFoundMsg) :=
  ⟨rfl, token_roundtrip { available := true, entries := [] } rfl⟩

/-! ## Cache-path isolation (C8) -/

theorem component_not_absolute (u : String) (h : ('/' : Char) ∉ u.data) :
    isAbsolute (u ++ "_contributions.json") = false := by
  cases u with | mk d =>
  cases d with
  | nil => rfl
  | cons c cs =>
      have hc : c ≠ '/' := fun hc => h (by simp [hc])
      simp [isAbsolute, String.data_append, hc]

theorem get_cache_path_of_component (d u : String) (h : ('/' : Char) ∉ u.data) :
    get_cache_path d u = (d ++ "/" ++ "cache") ++ "/" ++ (u ++ "_contributions.json") := by
  have h1 : isAbsolute "cache" = false := rfl
  have h2 := component_not_absolute u h
  simp [get_cache_path, path_join, h1, h2]

/-- C8 counterexample: the claim fails for usernames that are not plain path
components. `PathBuf::join` replaces the base when the joined component is
absolute, so with app data directory `/d` the distinct usernames `x` and
`/d/cache/x` compute the very same cache path — a fetch for one reads and
overwrites the cache file of the other. -/
theorem cache_path_collision_cex :
    ("x" : String) ≠ "/d/cache/x"
  ∧ get_cache_path "/d" "x" = get_cache_path "/d" "/d/cache/x" :=
  ⟨by decide, rfl⟩

/-- C8 (amended): for distinct usernames that are plain path components
(containing no path separator, so the joined component is one ordinary file
name), the computed cache paths are distinct, a fetch for one username
leaves every other path of the filesystem unchanged, and its outcome depends
only on the file at its own path — whereas a username that is an absolute
path replaces the base in `PathBuf::join` and can collide with another
username's cache file. -/
theorem cache_path_isolation_components (d u1 u2 : String) (h : u1 ≠ u2)
    (h1 : ('/' : Char) ∉ u1.data) (h2 : ('/' : Char) ∉ u2.data) :
    get_cache_path d u1 ≠ get_cache_path d u2
  ∧ (∀ (fs : FileSys) (remote : RemoteResponse) (we : Option String) o fs2,
        fetch_contributions_fs fs d u1 remote we = .ok (o, fs2) →
        fs2 (get_cache_path d u2) = fs (get_cache_path d u2))
  ∧ (∀ (fs gs : FileSys) (remote : RemoteResponse) (we : Option String),
        fs (get_cache_path d u1) = gs (get_cache_path d u1) →
        (fetch_contributions_fs fs d u1 remote we).map Prod.fst =
          (fetch_contributions_fs gs d u1 remote we).map Prod.fst) := by
  have hp : get_cache_path d u1 ≠ get_cache_path d u2 := by
    intro he
    apply h
    rw [get_cache_path_of_component d u1 h1, get_cache_path_of_component d u2 h2] at he
    have hd := congrArg String.data he
    simp only [String.data_append] at hd
    have ha := List.append_cancel_left hd
    have hb := List.append_cancel_right ha
    cases u1
    cases u2
    exact congrArg String.mk hb
  refine ⟨hp, ?_, ?_⟩
  · intro fs remote we o fs2 hfc
    unfold fetch_contributions_fs at hfc
    cases hc : fetch_contributions (fs (get_cache_path d u1)) remote we with
    | error e => rw [hc] at hfc; exact absurd hfc (by simp)
    | ok o2 =>
        rw [hc] at hfc
        simp only [Except.ok.injEq, Prod.mk.injEq] at hfc
        obtain ⟨ho, hfs⟩ := hfc
        rw [← hfs]
        cases hw : o2.cacheWritten with
        | none => simp [hw]
        | some days => simp [hw, if_neg (Ne.symm hp)]
  · intro fs gs remote we hfg
    unfold fetch_contributions_fs
    rw [hfg]
    cases hc : fetch_contributions (gs (get_cache_path d u1)) remote we <;>
      simp [hc, Except.map]

/-- Witness for C8 (amended): `alice` and `bob` are separator-free and their
paths differ. -/
theorem cache_path_isolation_components_witness :
    ("alice" : String) ≠ "bob"
  ∧ (('/' : Char) ∉ ("alice" : String).data)
  ∧ (('/' : Char) ∉ ("bob" : String).data)
  ∧ get_cache_path "" "alice" ≠ get_cache_path "" "bob" :=
  ⟨by decide, by decide, by decide,
    (cache_path_isolation_components "" "alice" "bob" (by decide) (by decide)
      (by decide)).1⟩
